import Mathlib

/-!
Verification of the participant-lifecycle core of the way-back-home
repository: the biome quadrant mapping (`get_biome` in
`src/solutions/level_1/generate_evidence.py`) and the lifecycle routes
(`src/dashboard/backend/app/routes/participants.py`), shallowly embedded
over an explicit store state.  Machine integers are modelled as `Int`,
Python `None`-able values as `Option`, timestamps as `Int`, and the
persistence layer as an explicit record passed through each operation.
-/

namespace WayBackHome

/-! ## BiomeMapper (`get_biome`, generate_evidence.py lines 67-84) -/

/-- Embeds `get_biome(x, y)`: quadrant split at the fixed midpoint 50. -/
def get_biome (x y : Int) : String :=
  if x < 50 ∧ y ≥ 50 then "CRYO"
  else if x ≥ 50 ∧ y ≥ 50 then "VOLCANIC"
  else if x < 50 ∧ y < 50 then "BIOLUMINESCENT"
  else "FOSSILIZED"

/-! ## Data model (`models/participants.py`, plus the record dict built by
`init_participant`).  The persisted record carries every field any route
may merge into it. -/

/-- A participant record as created and mutated by the routes. -/
structure Participant where
  participant_id : String
  username : String
  event_code : String
  project_id : Option String
  x : Int
  y : Int
  location_confirmed : Bool
  portrait_url : Option String
  icon_url : Option String
  suit_color : Option String
  appearance : Option String
  registered_at : Option Int
  created_at : Int
  active : Bool
  evidence_urls : Option (List (String × String))
  level_0_complete : Option Bool
  level_1_complete : Option Bool
  level_2_complete : Option Bool
  level_3_complete : Option Bool
  level_4_complete : Option Bool
  level_5_complete : Option Bool
  completion_percentage : Option Int
  deriving Repr, DecidableEq

/-- An event document as read by `init_participant` (fields accessed with
`.get` and a default, hence `Option`). -/
structure Event where
  active : Option Bool
  participant_count : Option Int
  max_participants : Option Int
  deriving Repr, DecidableEq

/-- The persistence-layer state: event documents, participant records, and
a count of write operations issued against the store. -/
structure DB where
  events : List (String × Event)
  participants : List Participant
  writeCount : Nat
  deriving Repr, DecidableEq

/-- HTTPException as raised by the routes: status code and detail. -/
structure ErrResp where
  status : Nat
  detail : String
  deriving Repr, DecidableEq

/-! ## ParticipantStore operations.  `database.py` is not part of the
provided sources; these are modelled from the spec (section 4.3). -/

/-- Modelled from the spec: `get(participant_id) -> Participant | NotFound`
(`database.get_participant` is not in the provided sources) — lookup of
the first record with the given id. -/
def get_participant (db : DB) (pid : String) : Option Participant :=
  db.participants.find? (fun p => p.participant_id == pid)

/-- Modelled from the spec: event lookup by unique code
(`database.get_event` is not in the provided sources). -/
def get_event (db : DB) (event_code : String) : Option Event :=
  (db.events.find? (fun e => e.fst == event_code)).map Prod.snd

/-- Modelled from the spec: `(event_code, username)` existence check
(`database.check_username_exists` is not in the provided sources). -/
def check_username_exists (db : DB) (event_code username : String) : Bool :=
  db.participants.any (fun p => p.event_code == event_code && p.username == username)

/-- Modelled from the spec: record insertion, one write against the store
(`database.create_participant` is not in the provided sources; its call
shape in the route — full record in, no result consumed — is an
unconditional insert, the check-then-act shape flagged in spec section 9). -/
def create_participant (db : DB) (p : Participant) : DB :=
  { db with participants := p :: db.participants, writeCount := db.writeCount + 1 }

/-- A partial record: the non-`None` entries of the dict a route passes to
`update_participant`. -/
structure PartialParticipant where
  x : Option Int := none
  y : Option Int := none
  location_confirmed : Option Bool := none
  portrait_url : Option String := none
  icon_url : Option String := none
  suit_color : Option String := none
  appearance : Option String := none
  registered_at : Option Int := none
  active : Option Bool := none
  evidence_urls : Option (List (String × String)) := none
  level_0_complete : Option Bool := none
  level_1_complete : Option Bool := none
  level_2_complete : Option Bool := none
  level_3_complete : Option Bool := none
  level_4_complete : Option Bool := none
  level_5_complete : Option Bool := none
  completion_percentage : Option Int := none
  deriving Repr, DecidableEq

/-- Merge of one provided field over the stored one. -/
def mergeOpt (u : Option α) (old : α) : α :=
  match u with
  | some v => v
  | none => old

/-- Merge of one provided field over a stored optional one. -/
def mergeOptOpt (u : Option α) (old : Option α) : Option α :=
  match u with
  | some v => some v
  | none => old

/-- Modelled from the spec: `merge_update` applies only non-null fields
from the partial record, leaving all other fields untouched
(`database.update_participant` is not in the provided sources). -/
def mergeParticipant (p : Participant) (u : PartialParticipant) : Participant :=
  { p with
    x := mergeOpt u.x p.x
    y := mergeOpt u.y p.y
    location_confirmed := mergeOpt u.location_confirmed p.location_confirmed
    portrait_url := mergeOptOpt u.portrait_url p.portrait_url
    icon_url := mergeOptOpt u.icon_url p.icon_url
    suit_color := mergeOptOpt u.suit_color p.suit_color
    appearance := mergeOptOpt u.appearance p.appearance
    registered_at := mergeOptOpt u.registered_at p.registered_at
    active := mergeOpt u.active p.active
    evidence_urls := mergeOptOpt u.evidence_urls p.evidence_urls
    level_0_complete := mergeOptOpt u.level_0_complete p.level_0_complete
    level_1_complete := mergeOptOpt u.level_1_complete p.level_1_complete
    level_2_complete := mergeOptOpt u.level_2_complete p.level_2_complete
    level_3_complete := mergeOptOpt u.level_3_complete p.level_3_complete
    level_4_complete := mergeOptOpt u.level_4_complete p.level_4_complete
    level_5_complete := mergeOptOpt u.level_5_complete p.level_5_complete
    completion_percentage := mergeOptOpt u.completion_percentage p.completion_percentage }

/-- Modelled from the spec: `merge_update(participant_id, partial_fields)`
merges the non-null fields into the record with that id, one write against
the store (`database.update_participant` is not in the provided sources). -/
def update_participant (db : DB) (pid : String) (u : PartialParticipant) : DB :=
  { db with
    participants :=
      db.participants.map (fun p => if p.participant_id == pid then mergeParticipant p u else p)
    writeCount := db.writeCount + 1 }

/-! ## Request models (`models/participants.py`) -/

/-- Request model for `POST /participants/init`. -/
structure ParticipantInit where
  event_code : String
  username : String
  project_id : Option String
  deriving Repr, DecidableEq

/-- Response model for participant initialization. -/
structure ParticipantInitResponse where
  participant_id : String
  username : String
  event_code : String
  starting_x : Int
  starting_y : Int
  deriving Repr, DecidableEq

/-- Request model for `POST /participants/register`. -/
structure ParticipantRegister where
  participant_id : String
  suit_color : Option String
  appearance : Option String
  deriving Repr, DecidableEq

/-- Request model for `PATCH /participants/\x7bid\x7d` (overrides). -/
structure ParticipantUpdate where
  level_0_complete : Option Bool := none
  level_1_complete : Option Bool := none
  level_2_complete : Option Bool := none
  level_3_complete : Option Bool := none
  level_4_complete : Option Bool := none
  level_5_complete : Option Bool := none
  completion_percentage : Option Int := none
  deriving Repr, DecidableEq

/-- The route drops `None` values from `updates.dict()`; the resulting dict
is empty exactly when every field is `None`. -/
def ParticipantUpdate.isEmpty (u : ParticipantUpdate) : Bool :=
  u.level_0_complete == none && u.level_1_complete == none &&
  u.level_2_complete == none && u.level_3_complete == none &&
  u.level_4_complete == none && u.level_5_complete == none &&
  u.completion_percentage == none

/-- The non-`None` fields of a `ParticipantUpdate`, as the partial record
handed to `update_participant`. -/
def ParticipantUpdate.toPartial (u : ParticipantUpdate) : PartialParticipant :=
  { level_0_complete := u.level_0_complete
    level_1_complete := u.level_1_complete
    level_2_complete := u.level_2_complete
    level_3_complete := u.level_3_complete
    level_4_complete := u.level_4_complete
    level_5_complete := u.level_5_complete
    completion_percentage := u.completion_percentage }

/-! ## Helper semantics of the Python source -/

/-- Python truthiness of an optional string: `None` and `""` are falsy. -/
def truthyOpt (o : Option String) : Bool :=
  match o with
  | none => false
  | some s => s != ""

/-- Helper for the substring test: does `pat` occur as a contiguous run
inside `l`? -/
def charsContain (pat : List Char) : List Char → Bool
  | [] => pat.isPrefixOf []
  | l@(_ :: rest) => pat.isPrefixOf l || charsContain pat rest

/-- Python substring test `pat in s`, on the character lists. -/
def strContains (s pat : String) : Bool :=
  charsContain pat.data s.data

/-- Modelled from the spec: `random.randint(a, b)` draws uniformly from
the inclusive range `[a, b]`; the draw is abstracted by a `seed` reduced
into the range (the standard library's generator is not repository code). -/
def randint (a b : Int) (seed : Nat) : Int :=
  a + ((seed % (b - a + 1).toNat : Nat) : Int)

/-! ## Routes (`routes/participants.py`).  Each operation returns the
route's result together with the store state after the call; `now` stands
for `datetime.now(timezone.utc)`, `pid` for the freshly drawn
`secrets.token_hex(4)`, `mapW`/`mapH` for the configured `MAP_WIDTH` and
`MAP_HEIGHT` (`config.py` is not in the provided sources), and `getUrl`
for the external storage collaborator's `get_avatar_url`. -/

/-- The participant record built by `init_participant` (routes lines
77-92): all optional fields null. -/
def freshParticipant (event_code username : String) (project_id : Option String)
    (pid : String) (x y : Int) (now : Int) : Participant :=
  { participant_id := pid
    username := username
    event_code := event_code
    project_id := project_id
    x := x
    y := y
    location_confirmed := false
    portrait_url := none
    icon_url := none
    suit_color := none
    appearance := none
    registered_at := none
    created_at := now
    active := true
    evidence_urls := none
    level_0_complete := none
    level_1_complete := none
    level_2_complete := none
    level_3_complete := none
    level_4_complete := none
    level_5_complete := none
    completion_percentage := none }

/-- Embeds `init_participant` (routes lines 48-102): gates in order
(event exists, event active, capacity, username free), then creates the
record with random coordinates inset 10 from the map edges. -/
def init_participant (db : DB) (mapW mapH : Int) (data : ParticipantInit)
    (pid : String) (seedX seedY : Nat) (now : Int) :
    Except ErrResp ParticipantInitResponse × DB :=
  match get_event db data.event_code with
  | none => (.error ⟨404, "Event not found"⟩, db)
  | some event =>
    if !(event.active.getD true) then
      (.error ⟨410, "Event has ended"⟩, db)
    else if event.participant_count.getD 0 ≥ event.max_participants.getD 500 then
      (.error ⟨409, "Event is full"⟩, db)
    else if check_username_exists db data.event_code data.username then
      (.error ⟨409, "Username already taken"⟩, db)
    else
      let starting_x := randint 10 (mapW - 10) seedX
      let starting_y := randint 10 (mapH - 10) seedY
      (.ok ⟨pid, data.username, data.event_code, starting_x, starting_y⟩,
        create_participant db
          (freshParticipant data.event_code data.username data.project_id pid
            starting_x starting_y now))

/-- Embeds `upload_avatar` (routes lines 105-152): participant must exist,
both content types must be PNG or JPEG; stores both assets and merges the
resulting URLs. -/
def upload_avatar (db : DB) (pid : String) (portraitCT iconCT : String)
    (getUrl : String → String) :
    Except ErrResp (String × String) × DB :=
  match get_participant db pid with
  | none => (.error ⟨404, "Participant not found"⟩, db)
  | some participant =>
    if !(portraitCT == "image/png" || portraitCT == "image/jpeg") then
      (.error ⟨400, "Invalid portrait file type. Must be PNG or JPEG."⟩, db)
    else if !(iconCT == "image/png" || iconCT == "image/jpeg") then
      (.error ⟨400, "Invalid icon file type. Must be PNG or JPEG."⟩, db)
    else
      let event_code := participant.event_code
      let portrait_url := getUrl ("avatars/" ++ event_code ++ "/" ++ pid ++ "/portrait.png")
      let icon_url := getUrl ("avatars/" ++ event_code ++ "/" ++ pid ++ "/icon.png")
      let db' := update_participant db pid
        { portrait_url := some portrait_url, icon_url := some icon_url }
      (.ok (portrait_url, icon_url), db')

/-- The `updates` dict `register_participant` builds (routes lines
174-183): always `registered_at` and `active`, plus `suit_color` and
`appearance` exactly when the supplied value is truthy. -/
def registerUpdates (data : ParticipantRegister) (now : Int) : PartialParticipant :=
  { registered_at := some now
    active := some true
    suit_color := if truthyOpt data.suit_color then data.suit_color else none
    appearance := if truthyOpt data.appearance then data.appearance else none }

/-- Embeds `register_participant` (routes lines 155-189): participant must
exist and both avatar URLs must be truthy; stamps `registered_at := now`,
`active := true`, and merges `suit_color`/`appearance` when truthy, then
re-fetches the record. -/
def register_participant (db : DB) (data : ParticipantRegister) (now : Int) :
    Except ErrResp Participant × DB :=
  match get_participant db data.participant_id with
  | none => (.error ⟨404, "Participant not found"⟩, db)
  | some participant =>
    if !(truthyOpt participant.portrait_url) || !(truthyOpt participant.icon_url) then
      (.error ⟨400, "Avatar must be uploaded before registration"⟩, db)
    else
      let db' := update_participant db data.participant_id (registerUpdates data now)
      match get_participant db' data.participant_id with
      | none => (.error ⟨500, "Internal Server Error"⟩, db')
      | some updated => (.ok updated, db')

/-- Extension precedence of `upload_evidence` (routes lines 222-228):
`"video" in content_type` → `mp4`, else `"png" in content_type` → `png`,
else `jpg`. -/
def ext_for (content_type : String) : String :=
  if strContains content_type "video" then "mp4"
  else if strContains content_type "png" then "png"
  else "jpg"

/-- Embeds `upload_evidence` (routes lines 192-242): participant must
exist; each of the three named assets is stored under a path carrying the
extension derived from its content type, and the URL mapping is merged
into `evidence_urls`. -/
def upload_evidence (db : DB) (pid : String) (soilCT starCT floraCT : String)
    (getUrl : String → String) :
    Except ErrResp (List (String × String)) × DB :=
  match get_participant db pid with
  | none => (.error ⟨404, "Participant not found"⟩, db)
  | some participant =>
    let event_code := participant.event_code
    let mkPath := fun (filename ct : String) =>
      "evidence/" ++ event_code ++ "/" ++ pid ++ "/" ++ filename ++ "." ++ ext_for ct
    let urls : List (String × String) :=
      [("soil", getUrl (mkPath "soil_sample" soilCT)),
       ("stars", getUrl (mkPath "star_field" starCT)),
       ("flora", getUrl (mkPath "flora_recording" floraCT))]
    let db' := update_participant db pid { evidence_urls := some urls }
    (.ok urls, db')

/-- Embeds `confirm_location` (routes lines 245-262): participant must
exist; unconditionally overwrites `x`, `y` and sets
`location_confirmed := true`. -/
def confirm_location (db : DB) (pid : String) (x y : Int) :
    Except ErrResp (Int × Int × Bool) × DB :=
  match get_participant db pid with
  | none => (.error ⟨404, "Participant not found"⟩, db)
  | some _ =>
    let db' := update_participant db pid
      { x := some x, y := some y, location_confirmed := some true }
    (.ok (x, y, true), db')

/-- Embeds `update_participant_details` (routes lines 265-287): participant
must exist; `None` fields are dropped; an empty remainder returns the
current record without writing, otherwise the fields are merged and the
record re-fetched. -/
def update_participant_details (db : DB) (pid : String) (updates : ParticipantUpdate) :
    Except ErrResp Participant × DB :=
  match get_participant db pid with
  | none => (.error ⟨404, "Participant not found"⟩, db)
  | some participant =>
    if updates.isEmpty then (.ok participant, db)
    else
      let db' := update_participant db pid updates.toPartial
      match get_participant db' pid with
      | none => (.error ⟨500, "Internal Server Error"⟩, db')
      | some updated => (.ok updated, db')

/-! ## Interleaved execution of two concurrent `Init` calls.

The route runs its gate block (routes lines 55-69: event lookup, active
flag, capacity, `check_username_exists`) as store reads, and then — as a
separate operation — `create_participant` (routes line 94) as a store
write.  A client of the interleaving model is an `Init` call for a fixed
`(event_code, username)` decomposed into exactly those two phases; a
schedule says whose pending phase runs next. -/

/-- One in-flight `Init` call: its freshly drawn participant id and its
program counter (0 = about to run the gate block, 1 = gates passed and
about to create, 2 = created and returned success, 3 = returned a gate
failure). -/
structure RaceClient where
  pid : String
  phase : Nat
  deriving Repr, DecidableEq

/-- Runs the next pending phase of one `Init` client against the store:
phase 0 is the route's read-only gate block, phase 1 the separate
`create_participant` write. -/
def stepInitPhase (event_code username : String) (project_id : Option String)
    (x y now : Int) (db : DB) (c : RaceClient) : DB × RaceClient :=
  match c.phase with
  | 0 =>
    match get_event db event_code with
    | none => (db, { c with phase := 3 })
    | some event =>
      if !(event.active.getD true) then (db, { c with phase := 3 })
      else if event.participant_count.getD 0 ≥ event.max_participants.getD 500 then
        (db, { c with phase := 3 })
      else if check_username_exists db event_code username then
        (db, { c with phase := 3 })
      else (db, { c with phase := 1 })
  | 1 =>
    (create_participant db
      (freshParticipant event_code username project_id c.pid x y now),
     { c with phase := 2 })
  | _ => (db, c)

/-- Two concurrent `Init` calls over one store. -/
structure RaceState where
  db : DB
  a : RaceClient
  b : RaceClient
  deriving Repr, DecidableEq

/-- Runs one scheduled step: `false` advances client `a`, `true` client `b`. -/
def raceStep (event_code username : String) (project_id : Option String)
    (x y now : Int) (s : RaceState) (who : Bool) : RaceState :=
  if who then
    let (db', b') := stepInitPhase event_code username project_id x y now s.db s.b
    { s with db := db', b := b' }
  else
    let (db', a') := stepInitPhase event_code username project_id x y now s.db s.a
    { s with db := db', a := a' }

/-- Runs a whole schedule of interleaved steps. -/
def runRace (event_code username : String) (project_id : Option String)
    (x y now : Int) (s : RaceState) (schedule : List Bool) : RaceState :=
  schedule.foldl (raceStep event_code username project_id x y now) s

/-- The records in the store claiming a given `(event_code, username)`. -/
def usernameCount (db : DB) (event_code username : String) : Nat :=
  (db.participants.filter
    (fun p => p.event_code == event_code && p.username == username)).length

/-! ## Concrete fixtures for evaluating the operations -/

/-- An event document with all three fields present. -/
def evE (active : Bool) (count maxp : Int) : Event :=
  ⟨some active, some count, some maxp⟩

/-- A stored participant with given avatar URLs, otherwise fresh. -/
def pSample (pid event_code username : String)
    (portrait icon : Option String) : Participant :=
  { freshParticipant event_code username none pid 20 30 0 with
    portrait_url := portrait, icon_url := icon }

/-- A store holding one active event `E` with spare capacity and no
participants. -/
def dbInit : DB := ⟨[("E", evE true 0 500)], [], 0⟩

/-- The response `init_participant` produces on `dbInit` with seeds 0. -/
def respInit : ParticipantInitResponse := ⟨"p1", "bob", "E", 10, 10⟩

/-- The store after that successful `init_participant` call. -/
def dbInitAfter : DB :=
  create_participant dbInit (freshParticipant "E" "bob" none "p1" 10 10 0)

/-- A participant whose avatar URLs are both set and non-empty. -/
def pReady : Participant := pSample "p1" "E" "bob" (some "P") (some "I")

/-- A store holding only `pReady`. -/
def dbReady : DB := ⟨[], [pReady], 0⟩

/-- A participant whose portrait URL is present but the empty string. -/
def pEmptyPortrait : Participant := pSample "p1" "E" "bob" (some "") (some "I")

/-- A store holding only `pEmptyPortrait`. -/
def dbEmptyPortrait : DB := ⟨[], [pEmptyPortrait], 0⟩

/-- A participant with no portrait URL yet. -/
def pNoPortrait : Participant := pSample "p1" "E" "bob" none (some "I")

/-- A store holding only `pNoPortrait`. -/
def dbNoPortrait : DB := ⟨[], [pNoPortrait], 0⟩

/-- Did the route return success rather than raise? -/
def exceptOk (e : Except ErrResp α) : Bool :=
  match e with
  | .ok _ => true
  | .error _ => false

/-- The override payload carrying only `level_2_complete = true`. -/
def level2Update : ParticipantUpdate := { level_2_complete := some true }

/-- Two racing `Init` clients, both at their gate block, over `dbInit`. -/
def raceStart : RaceState := ⟨dbInit, ⟨"a1", 0⟩, ⟨"b2", 0⟩⟩

/-- The extension rule as the spec words it: a video-indicating content
type yields `mp4`; otherwise content type `image/png` yields `png`; any
other content type yields `jpg`. -/
def ext_for_spec (content_type : String) : String :=
  if strContains content_type "video" then "mp4"
  else if content_type == "image/png" then "png"
  else "jpg"

/-! ## Helper lemmas -/

/-- Merging never rewrites the participant id. -/
theorem mergeParticipant_id (p : Participant) (u : PartialParticipant) :
    (mergeParticipant p u).participant_id = p.participant_id := rfl

/-- Looking a record up after a merge-update with its id yields the merged
record. -/
theorem find_update_list (l : List Participant) (pid : String)
    (u : PartialParticipant) (q : Participant)
    (h : l.find? (fun p => p.participant_id == pid) = some q) :
    (l.map (fun p => if p.participant_id == pid then mergeParticipant p u else p)).find?
      (fun p => p.participant_id == pid) = some (mergeParticipant q u) := by
  induction l with
  | nil => simp at h
  | cons a l ih =>
    rcases ha : (a.participant_id == pid) with _ | _
    · rw [List.find?_cons_of_neg _ (by simp [ha])] at h
      rw [List.map_cons, if_neg (by simp [ha]),
        List.find?_cons_of_neg _ (by simp [ha])]
      exact ih h
    · rw [List.find?_cons_of_pos _ (by simp [ha])] at h
      cases h
      rw [List.map_cons, if_pos (by simp [ha]),
        List.find?_cons_of_pos _ (by simp [mergeParticipant_id, ha])]

/-- `get_participant` after `update_participant` on the same id. -/
theorem get_participant_update (db : DB) (pid : String) (u : PartialParticipant)
    (q : Participant) (h : get_participant db pid = some q) :
    get_participant (update_participant db pid u) pid = some (mergeParticipant q u) := by
  unfold get_participant update_participant at *
  exact find_update_list db.participants pid u q h

/-- `randint a b` lands in the inclusive range `[a, b]`. -/
theorem randint_mem (a b : Int) (seed : Nat) (hab : a ≤ b) :
    a ≤ randint a b seed ∧ randint a b seed ≤ b := by
  unfold randint
  have hpos : 0 < (b - a + 1).toNat := by omega
  have hlt : seed % (b - a + 1).toNat < (b - a + 1).toNat := Nat.mod_lt _ hpos
  omega

/-- Merging a field included only when truthy: supplied-and-truthy wins,
otherwise the stored value survives. -/
theorem mergeOptOpt_truthy (o po : Option String) :
    mergeOptOpt (if truthyOpt o = true then o else none) po =
      if truthyOpt o = true then o else po := by
  cases o with
  | none => simp [truthyOpt, mergeOptOpt]
  | some s =>
    by_cases h : truthyOpt (some s) = true
    · rw [if_pos h, if_pos h]
      rfl
    · rw [if_neg h, if_neg h]
      rfl

/-! ## Claims -/

/-- C1: `get_biome` partitions the integer plane at the fixed midpoint 50
with no overlap or gap — `x < 50 ∧ y ≥ 50` gives CRYO, `x ≥ 50 ∧ y ≥ 50`
VOLCANIC, `x < 50 ∧ y < 50` BIOLUMINESCENT, `x ≥ 50 ∧ y < 50` FOSSILIZED —
and the four quadrant representatives (10,90), (90,90), (10,10), (90,10)
receive four pairwise-distinct categories.  Determinism is inherent:
`get_biome` is a pure function of its arguments. -/
theorem get_biome_partition (x y : Int) :
    (x < 50 → y ≥ 50 → get_biome x y = "CRYO") ∧
    (x ≥ 50 → y ≥ 50 → get_biome x y = "VOLCANIC") ∧
    (x < 50 → y < 50 → get_biome x y = "BIOLUMINESCENT") ∧
    (x ≥ 50 → y < 50 → get_biome x y = "FOSSILIZED") ∧
    get_biome 10 90 = "CRYO" ∧ get_biome 90 90 = "VOLCANIC" ∧
    get_biome 10 10 = "BIOLUMINESCENT" ∧ get_biome 90 10 = "FOSSILIZED" ∧
    get_biome 10 90 ≠ get_biome 90 90 ∧ get_biome 10 90 ≠ get_biome 10 10 ∧
    get_biome 10 90 ≠ get_biome 90 10 ∧ get_biome 90 90 ≠ get_biome 10 10 ∧
    get_biome 90 90 ≠ get_biome 90 10 ∧ get_biome 10 10 ≠ get_biome 90 10 := by
  refine ⟨?_, ?_, ?_, ?_, by decide, by decide, by decide, by decide,
    by decide, by decide, by decide, by decide, by decide, by decide⟩ <;>
  · intro hx hy
    unfold get_biome
    split_ifs <;> first | rfl | omega

/-- Witness for C1 at the concrete quadrant representatives. -/
theorem get_biome_partition_witness :
    get_biome 10 90 = "CRYO" ∧ get_biome 90 10 = "FOSSILIZED" :=
  ⟨(get_biome_partition 10 90).1 (by decide) (by decide),
   (get_biome_partition 90 10).2.2.2.1 (by decide) (by decide)⟩

/-- C10: `get_biome` is total over all integer pairs — negative or
out-of-map coordinates included — and always returns one of exactly the
four labels, the final else branch capturing every remaining case. -/
theorem get_biome_total (x y : Int) :
    get_biome x y = "CRYO" ∨ get_biome x y = "VOLCANIC" ∨
    get_biome x y = "BIOLUMINESCENT" ∨ get_biome x y = "FOSSILIZED" := by
  unfold get_biome
  split_ifs <;> simp

/-- C2 (failing execution): the route's username-availability check and
its record creation are two separate store operations, so under the
interleaving gate-block(a), gate-block(b), create(a), create(b) — on an
active event with spare capacity and a free username — both `Init` calls
reach the success phase and the store ends up with two records claiming
`("E", "bob")`; a serialized schedule instead admits exactly one.  This
refutes at-most-one-success as a property of the code. -/
theorem race_init_both_succeed :
    (runRace "E" "bob" none 20 30 0 raceStart [false, true, false, true]).a.phase = 2 ∧
    (runRace "E" "bob" none 20 30 0 raceStart [false, true, false, true]).b.phase = 2 ∧
    usernameCount (runRace "E" "bob" none 20 30 0 raceStart
      [false, true, false, true]).db "E" "bob" = 2 ∧
    (runRace "E" "bob" none 20 30 0 raceStart [false, false, true, true]).a.phase = 2 ∧
    (runRace "E" "bob" none 20 30 0 raceStart [false, false, true, true]).b.phase = 3 ∧
    usernameCount (runRace "E" "bob" none 20 30 0 raceStart
      [false, false, true, true]).db "E" "bob" = 1 := by
  decide

/-- C7: `Override` with an all-null payload returns the current record
unchanged and performs no write: the store — write counter included — is
returned exactly as it was. -/
theorem override_empty_noop (db : DB) (pid : String) (p : Participant)
    (hp : get_participant db pid = some p) :
    update_participant_details db pid {} = (.ok p, db) := by
  unfold update_participant_details
  rw [hp]
  rfl

/-- Witness for C7 on a concrete store. -/
theorem override_empty_noop_witness :
    update_participant_details dbReady "p1" {} = (.ok pReady, dbReady) :=
  override_empty_noop dbReady "p1" pReady (by decide)

/-- C6: `Override` with a payload carrying only `level_2_complete = true`
returns — and stores — the pre-update record with every field other than
`level_2_complete` unchanged. -/
theorem override_level2_frame (db : DB) (pid : String) (p : Participant)
    (hp : get_participant db pid = some p) :
    ∃ db', update_participant_details db pid level2Update =
        (.ok { p with level_2_complete := some true }, db') ∧
      get_participant db' pid = some { p with level_2_complete := some true } := by
  have hfound := get_participant_update db pid level2Update.toPartial p hp
  have hmerge : mergeParticipant p level2Update.toPartial =
      { p with level_2_complete := some true } := rfl
  refine ⟨update_participant db pid level2Update.toPartial, ?_, ?_⟩
  · unfold update_participant_details
    rw [hp]
    dsimp only
    rw [if_neg (by decide : ¬ (level2Update.isEmpty = true))]
    rw [hfound]
    dsimp only
    rw [hmerge]
  · rw [hfound, hmerge]

/-- Witness for C6 on a concrete store. -/
theorem override_level2_frame_witness :
    ∃ db', update_participant_details dbReady "p1" level2Update =
        (.ok { pReady with level_2_complete := some true }, db') ∧
      get_participant db' "p1" = some { pReady with level_2_complete := some true } :=
  override_level2_frame dbReady "p1" pReady (by decide)

/-- C3: `Init` gates in order — event exists (404), event active (410),
`participant_count < max_participants` (409 full, even when the username
is free), username free (409 taken) — and each gate failure returns the
typed failure with the store exactly as it was (no record created). -/
theorem init_participant_gates (db : DB) (mapW mapH : Int) (data : ParticipantInit)
    (pid : String) (sx sy : Nat) (now : Int) :
    (get_event db data.event_code = none →
      init_participant db mapW mapH data pid sx sy now =
        (.error ⟨404, "Event not found"⟩, db)) ∧
    (∀ e, get_event db data.event_code = some e → e.active.getD true = false →
      init_participant db mapW mapH data pid sx sy now =
        (.error ⟨410, "Event has ended"⟩, db)) ∧
    (∀ e, get_event db data.event_code = some e → e.active.getD true = true →
      e.participant_count.getD 0 ≥ e.max_participants.getD 500 →
      check_username_exists db data.event_code data.username = false →
      init_participant db mapW mapH data pid sx sy now =
        (.error ⟨409, "Event is full"⟩, db)) ∧
    (∀ e, get_event db data.event_code = some e → e.active.getD true = true →
      e.participant_count.getD 0 < e.max_participants.getD 500 →
      check_username_exists db data.event_code data.username = true →
      init_participant db mapW mapH data pid sx sy now =
        (.error ⟨409, "Username already taken"⟩, db)) := by
  refine ⟨?_, ?_, ?_, ?_⟩
  · intro h
    unfold init_participant
    rw [h]
  · intro e he ha
    unfold init_participant
    rw [he]
    dsimp only
    rw [ha]
    rfl
  · intro e he ha hfull _
    unfold init_participant
    rw [he]
    dsimp only
    rw [ha, if_pos hfull]
    rfl
  · intro e he ha hlt htaken
    unfold init_participant
    rw [he]
    dsimp only
    rw [ha, if_neg (not_le.mpr hlt), htaken]
    rfl

/-- Witness for C3: the four gate failures on concrete stores. -/
theorem init_participant_gates_witness :
    init_participant (⟨[], [], 0⟩ : DB) 100 100 ⟨"E", "bob", none⟩ "p1" 0 0 0 =
      (.error ⟨404, "Event not found"⟩, (⟨[], [], 0⟩ : DB)) ∧
    init_participant (⟨[("E", evE false 0 500)], [], 0⟩ : DB) 100 100
        ⟨"E", "bob", none⟩ "p1" 0 0 0 =
      (.error ⟨410, "Event has ended"⟩, (⟨[("E", evE false 0 500)], [], 0⟩ : DB)) ∧
    init_participant (⟨[("E", evE true 2 2)], [], 0⟩ : DB) 100 100
        ⟨"E", "bob", none⟩ "p1" 0 0 0 =
      (.error ⟨409, "Event is full"⟩, (⟨[("E", evE true 2 2)], [], 0⟩ : DB)) ∧
    init_participant (⟨[("E", evE true 1 500)], [pReady], 0⟩ : DB) 100 100
        ⟨"E", "bob", none⟩ "p2" 0 0 0 =
      (.error ⟨409, "Username already taken"⟩,
        (⟨[("E", evE true 1 500)], [pReady], 0⟩ : DB)) :=
  ⟨(init_participant_gates _ 100 100 _ "p1" 0 0 0).1 rfl,
   (init_participant_gates _ 100 100 _ "p1" 0 0 0).2.1 (evE false 0 500) rfl rfl,
   (init_participant_gates _ 100 100 _ "p1" 0 0 0).2.2.1 (evE true 2 2) rfl rfl
     (by decide) (by decide),
   (init_participant_gates _ 100 100 _ "p2" 0 0 0).2.2.2 (evE true 1 500) rfl rfl
     (by decide) (by decide)⟩

/-- C8: every successful `Init` returns the new participant's id, username,
event code and starting coordinates, and for every value drawn from the
random source the coordinates lie in the interior inset by the fixed
margin 10: `10 ≤ x ≤ MAP_WIDTH - 10` and `10 ≤ y ≤ MAP_HEIGHT - 10`. -/
theorem init_participant_coords (db : DB) (mapW mapH : Int) (data : ParticipantInit)
    (pid : String) (sx sy : Nat) (now : Int) (resp : ParticipantInitResponse) (db' : DB)
    (hW : 20 ≤ mapW) (hH : 20 ≤ mapH)
    (h : init_participant db mapW mapH data pid sx sy now = (.ok resp, db')) :
    resp.participant_id = pid ∧ resp.username = data.username ∧
    resp.event_code = data.event_code ∧
    10 ≤ resp.starting_x ∧ resp.starting_x ≤ mapW - 10 ∧
    10 ≤ resp.starting_y ∧ resp.starting_y ≤ mapH - 10 := by
  unfold init_participant at h
  split at h
  · exact absurd (congrArg Prod.fst h) (by simp)
  · split at h
    · exact absurd (congrArg Prod.fst h) (by simp)
    · split at h
      · exact absurd (congrArg Prod.fst h) (by simp)
      · split at h
        · exact absurd (congrArg Prod.fst h) (by simp)
        · have hx := randint_mem 10 (mapW - 10) sx (by omega)
          have hy := randint_mem 10 (mapH - 10) sy (by omega)
          have hresp : resp = ⟨pid, data.username, data.event_code,
              randint 10 (mapW - 10) sx, randint 10 (mapH - 10) sy⟩ := by
            have := congrArg Prod.fst h
            simp only at this
            exact (Except.ok.injEq _ _).mp this.symm
          subst hresp
          exact ⟨rfl, rfl, rfl, hx.1, hx.2, hy.1, hy.2⟩

/-- Witness for C8: a concrete successful `Init` on a 100 by 100 map. -/
theorem init_participant_coords_witness :
    respInit.participant_id = "p1" ∧ respInit.username = "bob" ∧
    respInit.event_code = "E" ∧
    10 ≤ respInit.starting_x ∧ respInit.starting_x ≤ 100 - 10 ∧
    10 ≤ respInit.starting_y ∧ respInit.starting_y ≤ 100 - 10 :=
  init_participant_coords dbInit 100 100 ⟨"E", "bob", none⟩ "p1" 0 0 0
    respInit dbInitAfter (by omega) (by omega) rfl

/-- C4 counterexample: a participant whose portrait URL is present
(non-null) but the empty string — both URLs are present, yet `Register`
returns 400, because the route tests Python truthiness, not nullness.
This refutes "when both URLs are present it succeeds". -/
theorem register_present_urls_fail :
    pEmptyPortrait.portrait_url = some "" ∧ pEmptyPortrait.icon_url = some "I" ∧
    register_participant dbEmptyPortrait ⟨"p1", none, none⟩ 5 =
      (.error ⟨400, "Avatar must be uploaded before registration"⟩, dbEmptyPortrait) :=
  ⟨rfl, rfl, rfl⟩

/-- C4 (amended): `Register` fails with 400 and performs no mutation
whenever `portrait_url` or `icon_url` is falsy — null or the empty string
— in particular whenever either is null, regardless of every other field;
when both are truthy (present and non-empty) it succeeds, sets
`registered_at` to the current time and `active` to true, and merges
`suit_color` and `appearance` exactly when supplied truthy, leaving the
other fields unchanged. -/
theorem register_gate_and_stamp (db : DB) (data : ParticipantRegister) (now : Int)
    (p : Participant) (hp : get_participant db data.participant_id = some p) :
    ((truthyOpt p.portrait_url = false ∨ truthyOpt p.icon_url = false) →
      register_participant db data now =
        (.error ⟨400, "Avatar must be uploaded before registration"⟩, db)) ∧
    ((p.portrait_url = none ∨ p.icon_url = none) →
      register_participant db data now =
        (.error ⟨400, "Avatar must be uploaded before registration"⟩, db)) ∧
    (truthyOpt p.portrait_url = true → truthyOpt p.icon_url = true →
      ∃ p' db', register_participant db data now = (.ok p', db') ∧
        p'.registered_at = some now ∧ p'.active = true ∧
        p'.suit_color =
          (if truthyOpt data.suit_color = true then data.suit_color else p.suit_color) ∧
        p'.appearance =
          (if truthyOpt data.appearance = true then data.appearance else p.appearance) ∧
        p'.portrait_url = p.portrait_url ∧ p'.icon_url = p.icon_url ∧
        p'.username = p.username ∧ p'.event_code = p.event_code ∧
        p'.x = p.x ∧ p'.y = p.y ∧ p'.evidence_urls = p.evidence_urls) := by
  have gate : (truthyOpt p.portrait_url = false ∨ truthyOpt p.icon_url = false) →
      register_participant db data now =
        (.error ⟨400, "Avatar must be uploaded before registration"⟩, db) := by
    intro hfalsy
    unfold register_participant
    rw [hp]
    dsimp only
    rcases hfalsy with h | h
    · rw [h]
      rfl
    · rw [h]
      cases hport : truthyOpt p.portrait_url <;> rfl
  refine ⟨gate, ?_, ?_⟩
  · intro hnull
    apply gate
    rcases hnull with h | h
    · exact Or.inl (by rw [h]; rfl)
    · exact Or.inr (by rw [h]; rfl)
  · intro hport hicon
    refine ⟨mergeParticipant p (registerUpdates data now),
      update_participant db data.participant_id (registerUpdates data now),
      ?_, rfl, rfl, ?_, ?_, rfl, rfl, rfl, rfl, rfl, rfl, rfl⟩
    · unfold register_participant
      rw [hp]
      dsimp only
      rw [hport, hicon]
      rw [get_participant_update db data.participant_id (registerUpdates data now) p hp]
      rfl
    · exact mergeOptOpt_truthy data.suit_color p.suit_color
    · exact mergeOptOpt_truthy data.appearance p.appearance

/-- Witness for C4: a null-portrait participant fails with 400 and no
mutation; a truthy-avatar participant registers, getting `registered_at`
stamped and its supplied suit color merged. -/
theorem register_gate_and_stamp_witness :
    register_participant dbNoPortrait ⟨"p1", none, none⟩ 3 =
      (.error ⟨400, "Avatar must be uploaded before registration"⟩, dbNoPortrait) ∧
    Except.map Participant.registered_at
      (register_participant dbReady ⟨"p1", some "red", none⟩ 9).1 = .ok (some 9) ∧
    Except.map Participant.suit_color
      (register_participant dbReady ⟨"p1", some "red", none⟩ 9).1 = .ok (some "red") := by
  obtain ⟨p', db', heq, hreg, hact, hsuit, happ, hrest⟩ :=
    (register_gate_and_stamp dbReady ⟨"p1", some "red", none⟩ 9 pReady
      (by decide)).2.2 (by decide) (by decide)
  refine ⟨(register_gate_and_stamp dbNoPortrait ⟨"p1", none, none⟩ 3 pNoPortrait
      (by decide)).2.1 (Or.inl rfl), ?_, ?_⟩
  · rw [heq]
    dsimp only [Except.map]
    rw [hreg]
  · rw [heq]
    dsimp only [Except.map]
    rw [hsuit, if_pos (show truthyOpt (some "red") = true by decide)]

/-- C5 counterexample: two successful `Register` calls on one participant
— both succeed, and the second re-stamps `registered_at` from time 1 to
time 2, so a later operation does change an already non-null
`registered_at`. -/
theorem registered_at_restamped :
    exceptOk (register_participant dbReady ⟨"p1", none, none⟩ 1).1 = true ∧
    (get_participant (register_participant dbReady ⟨"p1", none, none⟩ 1).2 "p1").map
      Participant.registered_at = some (some 1) ∧
    exceptOk (register_participant
      (register_participant dbReady ⟨"p1", none, none⟩ 1).2 ⟨"p1", none, none⟩ 2).1 = true ∧
    (get_participant (register_participant
      (register_participant dbReady ⟨"p1", none, none⟩ 1).2 ⟨"p1", none, none⟩ 2).2
        "p1").map Participant.registered_at = some (some 2) ∧
    some (some (1 : Int)) ≠ some (some (2 : Int)) := by
  refine ⟨rfl, rfl, rfl, rfl, by decide⟩

/-- C5 (amended): `registered_at` is not write-once — every successful
`Register` re-stamps it to the call's current time; it is unchanged by
every other lifecycle operation on the participant (avatar upload,
evidence upload, location confirmation, field override), whatever their
arguments or outcome. -/
theorem registered_at_frame (db : DB) (pid : String) (p : Participant)
    (hp : get_participant db pid = some p) :
    (∀ ct1 ct2 g, ∃ q, get_participant (upload_avatar db pid ct1 ct2 g).2 pid = some q ∧
      q.registered_at = p.registered_at) ∧
    (∀ s t f g, ∃ q, get_participant (upload_evidence db pid s t f g).2 pid = some q ∧
      q.registered_at = p.registered_at) ∧
    (∀ x y, ∃ q, get_participant (confirm_location db pid x y).2 pid = some q ∧
      q.registered_at = p.registered_at) ∧
    (∀ u, ∃ q, get_participant (update_participant_details db pid u).2 pid = some q ∧
      q.registered_at = p.registered_at) ∧
    (∀ sc ap now, truthyOpt p.portrait_url = true → truthyOpt p.icon_url = true →
      ∃ q, get_participant (register_participant db ⟨pid, sc, ap⟩ now).2 pid = some q ∧
        q.registered_at = some now) := by
  refine ⟨?_, ?_, ?_, ?_, ?_⟩
  · intro ct1 ct2 g
    unfold upload_avatar
    rw [hp]
    dsimp only
    split
    · exact ⟨p, hp, rfl⟩
    · split
      · exact ⟨p, hp, rfl⟩
      · exact ⟨mergeParticipant p _, get_participant_update db pid _ p hp, rfl⟩
  · intro s t f g
    unfold upload_evidence
    rw [hp]
    exact ⟨mergeParticipant p _, get_participant_update db pid _ p hp, rfl⟩
  · intro x y
    unfold confirm_location
    rw [hp]
    exact ⟨mergeParticipant p _, get_participant_update db pid _ p hp, rfl⟩
  · intro u
    unfold update_participant_details
    rw [hp]
    dsimp only
    split
    · exact ⟨p, hp, rfl⟩
    · rw [get_participant_update db pid u.toPartial p hp]
      exact ⟨mergeParticipant p _, get_participant_update db pid _ p hp, rfl⟩
  · intro sc ap now hport hicon
    unfold register_participant
    rw [hp]
    dsimp only
    rw [hport, hicon]
    rw [get_participant_update db pid (registerUpdates ⟨pid, sc, ap⟩ now) p hp]
    exact ⟨mergeParticipant p _, get_participant_update db pid _ p hp, rfl⟩

/-- Witness for C5 (amended): on a concrete store, confirming a location
leaves `registered_at` null, and a register call stamps it to 7. -/
theorem registered_at_frame_witness :
    (get_participant (confirm_location dbReady "p1" 1 2).2 "p1").map
      Participant.registered_at = some none ∧
    (get_participant (register_participant dbReady ⟨"p1", none, none⟩ 7).2 "p1").map
      Participant.registered_at = some (some 7) := by
  obtain ⟨q, hq, hr⟩ := (registered_at_frame dbReady "p1" pReady (by decide)).2.2.1 1 2
  obtain ⟨q', hq', hr'⟩ := (registered_at_frame dbReady "p1" pReady
    (by decide)).2.2.2.2 none none 7 (by decide) (by decide)
  constructor
  · rw [hq]
    dsimp only [Option.map]
    rw [hr]
    rfl
  · rw [hq']
    dsimp only [Option.map]
    rw [hr']

/-- C9 counterexample: content type `image/apng` is not video-indicating
and is not `image/png`, so by the claimed precedence it would get the
default extension `jpg` — but the code substring-matches `"png"` and
stores it with extension `png`. -/
theorem ext_for_apng :
    ext_for "image/apng" = "png" ∧ ext_for_spec "image/apng" = "jpg" ∧
    strContains "image/apng" "video" = false ∧
    ("image/apng" : String) ≠ "image/png" := by
  refine ⟨by decide, by decide, by decide, by decide⟩

/-- C9 (amended): the storage extension is decided by substring
precedence on the declared content type — any type containing `"video"`
gets `mp4`; otherwise any type containing `"png"` (not only exactly
`image/png`) gets `png`; anything else gets the default `jpg` — and each
asset's stored path carries that extension, with the resulting URL
mapping merged into `evidence_urls`. -/
theorem upload_evidence_paths (db : DB) (pid : String) (p : Participant)
    (sct tct fct : String) (g : String → String)
    (hp : get_participant db pid = some p) :
    (∀ ct, (strContains ct "video" = true → ext_for ct = "mp4") ∧
      (strContains ct "video" = false → strContains ct "png" = true →
        ext_for ct = "png") ∧
      (strContains ct "video" = false → strContains ct "png" = false →
        ext_for ct = "jpg")) ∧
    ∃ urls db', upload_evidence db pid sct tct fct g = (.ok urls, db') ∧
      urls = [("soil", g ("evidence/" ++ p.event_code ++ "/" ++ pid ++ "/" ++
                "soil_sample" ++ "." ++ ext_for sct)),
              ("stars", g ("evidence/" ++ p.event_code ++ "/" ++ pid ++ "/" ++
                "star_field" ++ "." ++ ext_for tct)),
              ("flora", g ("evidence/" ++ p.event_code ++ "/" ++ pid ++ "/" ++
                "flora_recording" ++ "." ++ ext_for fct))] ∧
      ∃ q, get_participant db' pid = some q ∧ q.evidence_urls = some urls := by
  constructor
  · intro ct
    refine ⟨?_, ?_, ?_⟩
    · intro h
      simp [ext_for, h]
    · intro h1 h2
      simp [ext_for, h1, h2]
    · intro h1 h2
      simp [ext_for, h1, h2]
  · unfold upload_evidence
    rw [hp]
    exact ⟨_, _, rfl, rfl, mergeParticipant p _, get_participant_update db pid _ p hp, rfl⟩

/-- Witness for C9 (amended): the three precedence outcomes on concrete
content types. -/
theorem upload_evidence_paths_witness :
    ext_for "video/mp4" = "mp4" ∧ ext_for "image/png" = "png" ∧
    ext_for "application/zzz" = "jpg" := by
  obtain ⟨hext, -⟩ := upload_evidence_paths dbReady "p1" pReady "video/mp4" "image/png"
    "application/zzz" (fun s => s) (by decide)
  exact ⟨(hext "video/mp4").1 (by decide),
    (hext "image/png").2.1 (by decide) (by decide),
    (hext "application/zzz").2.2 (by decide) (by decide)⟩

end WayBackHome
